import Mathlib

/-!
Shallow embedding of the NWS St. Clair County alert bot (`src/bot.py`):
the persisted dedup store, the server-config destination registry,
the upstream fetch wrapper, and the periodic `check_alerts` cycle with
its multi-channel fan-out.
-/

/-- A JSON value, as `json.load` can produce it for the persisted files. -/
inductive Json where
  | null : Json
  | boolv (b : Bool) : Json
  | num (n : Int) : Json
  | str (s : String) : Json
  | arr (elems : List Json) : Json
  | obj (fields : List (String × Json)) : Json

/-- Python exception escaping a load path uncaught. -/
inductive PyError where
  | typeError : PyError
deriving DecidableEq

/-- State of a persisted file as the loaders see it: absent, unreadable
(`IOError` on open/read), syntactically invalid JSON (`json.JSONDecodeError`),
or a successfully decoded JSON value. -/
inductive FileState where
  | missing : FileState
  | ioError : FileState
  | decodeFail : FileState
  | json (v : Json) : FileState

/-- Python slice `xs[-n:]`: the last `n` elements (whole list when shorter). -/
def pyTakeLast (n : Nat) (xs : List α) : List α :=
  xs.drop (xs.length - n)

/-- Whether a JSON value is hashable in Python (lists and dicts are not). -/
def Json.hashable : Json → Bool
  | .arr _ => false
  | .obj _ => false
  | _ => true

/-- Equality on hashable (scalar) JSON values; `set()` only ever compares
hashable elements, so containers never reach this comparison. -/
def Json.scalarEq : Json → Json → Bool
  | .null, .null => true
  | .boolv a, .boolv b => a == b
  | .num a, .num b => a == b
  | .str a, .str b => a == b
  | _, _ => false

/-- Helper for `pyDedup`: keep each element not equal to one already seen. -/
def pyDedupGo (eq : α → α → Bool) (seen : List α) : List α → List α
  | [] => []
  | x :: xs =>
    if seen.any (fun y => eq y x) then pyDedupGo eq seen xs
    else x :: pyDedupGo eq (x :: seen) xs

/-- Python `set(...)` applied to a list, represented as the list of distinct
elements in first-occurrence order. -/
def pyDedup (eq : α → α → Bool) (l : List α) : List α :=
  pyDedupGo eq [] l

/-- Model of `NWSAlertBot.load_posted_alerts` (bot.py lines 76-86): reads the
persisted JSON, keeps the last 500 entries (`data[-500:]`), converts to a
Python set.  Only `json.JSONDecodeError` and `IOError` are caught (yielding
an empty set); slicing a non-sliceable decoded value or hashing an
unhashable element raises an uncaught `TypeError`. -/
def load_posted_alerts : FileState → Except PyError (List Json)
  | .missing => .ok []
  | .ioError => .ok []
  | .decodeFail => .ok []
  | .json v =>
    match v with
    | .arr xs =>
      let kept := pyTakeLast 500 xs
      if kept.all Json.hashable then .ok (pyDedup Json.scalarEq kept)
      else .error .typeError
    | .str s =>
      .ok (pyDedup Json.scalarEq
        ((pyTakeLast 500 s.data).map (fun c => Json.str (String.mk [c]))))
    | _ => .error .typeError

/-- Model of `NWSAlertBot.load_server_config` (bot.py lines 93-101): returns
whatever JSON the file decodes to; a missing file, `IOError`, or
`json.JSONDecodeError` yields the empty dict.  This path never raises. -/
def load_server_config : FileState → Json
  | .missing => .obj []
  | .ioError => .obj []
  | .decodeFail => .obj []
  | .json v => v

/-! ## Destination registry (`server_config`) -/

/-- The per-guild configuration dict `{"alert_channel_id": channel_id}`;
`alert_channel_id = none` models a missing or null `alert_channel_id` key. -/
structure GuildConfig where
  alert_channel_id : Option Int
deriving DecidableEq, Repr

/-- The `server_config` dict, a Python dict from `str(guild_id)` keys to
per-guild config, in insertion order. -/
abbrev ServerConfig := List (String × GuildConfig)

/-- Python dict lookup `d[k]` / `d.get(k)`: the value of the (single)
binding for `k`, if present. -/
def pyDictGet (d : List (String × α)) (k : String) : Option α :=
  match d with
  | [] => none
  | (k', v) :: rest => if k' = k then some v else pyDictGet rest k

/-- Python dict assignment `d[k] = v`: replaces the value in place when the
key is present, otherwise appends a new binding at the end. -/
def pyDictSet (d : List (String × α)) (k : String) (v : α) :
    List (String × α) :=
  if (pyDictGet d k).isSome then
    d.map (fun p => if p.1 = k then (k, v) else p)
  else d ++ [(k, v)]

/-- Python dict deletion `del d[k]`: removes the (single) binding for `k`. -/
def pyDictDel (d : List (String × α)) (k : String) : List (String × α) :=
  match d with
  | [] => []
  | (k', v) :: rest => if k' = k then rest else (k', v) :: pyDictDel rest k

/-- Model of `NWSAlertBot.set_alert_channel` (bot.py lines 108-111):
`self.server_config[str(guild_id)] = {"alert_channel_id": channel_id}`. -/
def set_alert_channel (config : ServerConfig) (guild_id channel_id : Int) :
    ServerConfig :=
  pyDictSet config (toString guild_id) ⟨some channel_id⟩

/-- Model of `NWSAlertBot.remove_alert_channel` (bot.py lines 113-120):
deletes the binding and returns true when `str(guild_id)` is a key,
otherwise returns false; the returned config is the updated dict. -/
def remove_alert_channel (config : ServerConfig) (guild_id : Int) :
    ServerConfig × Bool :=
  let guild_key := toString guild_id
  if (pyDictGet config guild_key).isSome then
    (pyDictDel config guild_key, true)
  else (config, false)

/-- Model of `NWSAlertBot.get_alert_channel` (bot.py lines 122-127). -/
def get_alert_channel (config : ServerConfig) (guild_id : Int) : Option Int :=
  match pyDictGet config (toString guild_id) with
  | some gc => gc.alert_channel_id
  | none => none

/-- Model of `NWSAlertBot.get_all_alert_channels` (bot.py lines 129-136):
collects each guild's `alert_channel_id`, skipping missing/null/zero
(Python-falsy) values. -/
def get_all_alert_channels : ServerConfig → List Int
  | [] => []
  | (_, gc) :: rest =>
    match gc.alert_channel_id with
    | some c => if c ≠ 0 then c :: get_all_alert_channels rest
                else get_all_alert_channels rest
    | none => get_all_alert_channels rest

/-! ## Alerts and the urgency policy -/

/-- The fields of an alert's `properties` dict that the poll cycle reads;
`none` models a missing key (Python `.get` default applies). -/
structure AlertProps where
  id : Option String
  event : Option String
  severity : Option String
deriving DecidableEq, Repr

/-- An upstream alert record; `properties = none` models a feature with no
`properties` key (`alert.get("properties", {})` then defaults). -/
structure Alert where
  properties : Option AlertProps
deriving DecidableEq, Repr

/-- `alert.get("properties", {}).get("id", "")` (bot.py line 333). -/
def Alert.alertId (alert : Alert) : String :=
  match alert.properties with
  | some props => props.id.getD ""
  | none => ""

/-- `alert.get("properties", {}).get("severity", "")` (bot.py line 340). -/
def Alert.severityOf (alert : Alert) : String :=
  match alert.properties with
  | some props => props.severity.getD ""
  | none => ""

/-- `alert.get("properties", {}).get("event", "")` (bot.py line 341). -/
def Alert.eventOf (alert : Alert) : String :=
  match alert.properties with
  | some props => props.event.getD ""
  | none => ""

/-- The fixed always-urgent event set `ping_events` (bot.py line 344). -/
def ping_events : List String :=
  ["Tornado Warning", "Flash Flood Warning", "Blizzard Warning"]

/-- The broadcast/mention marker prepended for urgent alerts
(bot.py line 347). -/
def pingMessage : String := "@everyone **SEVERE WEATHER ALERT**"

/-- The message content chosen for an alert (bot.py lines 345-347):
the mention marker when severity is `"Extreme"` (the highest level in
`SEVERITY_COLORS`) or the event is in `ping_events`, else empty. -/
def alertContent (alert : Alert) : String :=
  if alert.severityOf = "Extreme" ∨ alert.eventOf ∈ ping_events then
    pingMessage
  else ""

/-! ## Delivery fan-out and the poll cycle -/

/-- The environment a poll cycle runs against: whether `self.get_channel`
resolves a channel id, and whether `channel.send` succeeds (versus raising
`discord.DiscordException`) for a given channel and alert id. -/
structure Env where
  resolve : Int → Bool
  sendOk : Int → String → Bool

/-- Outcome of the per-alert posting loop (bot.py lines 350-361):
channels attempted (resolved, `send` called), channels whose send
succeeded, failed sends logged at line 359, unresolvable channels logged
at line 361, and the `posted_successfully` flag. -/
structure PostResult where
  attempted : List Int
  succeeded : List Int
  failedLogged : List Int
  notFound : List Int
  posted_successfully : Bool
deriving DecidableEq, Repr

/-- The posting loop over `alert_channels` (bot.py lines 350-361): resolve
each channel id; when resolved, attempt the send; a `DiscordException` is
caught and logged, leaving the rest of the loop to run. -/
def postLoop (resolve sendOk : Int → Bool) : List Int → PostResult
  | [] => ⟨[], [], [], [], false⟩
  | channel_id :: rest =>
    let r := postLoop resolve sendOk rest
    if resolve channel_id then
      if sendOk channel_id then
        ⟨channel_id :: r.attempted, channel_id :: r.succeeded,
         r.failedLogged, r.notFound, true⟩
      else
        ⟨channel_id :: r.attempted, r.succeeded,
         channel_id :: r.failedLogged, r.notFound, r.posted_successfully⟩
    else
      ⟨r.attempted, r.succeeded, r.failedLogged,
       channel_id :: r.notFound, r.posted_successfully⟩

/-- One message send within a cycle: destination channel, alert id, and the
`content` string passed to `channel.send`. -/
structure SendRec where
  channel : Int
  alertId : String
  content : String
deriving DecidableEq, Repr

/-- Observable state accumulated by a poll cycle: the in-memory
`posted_alerts` set, how many times `save_posted_alerts` ran, which alert
ids were rendered into embeds, and every attempted/successful send. -/
structure CycleState where
  posted : Finset String
  saves : Nat
  rendered : List String
  attempts : List SendRec
  successes : List SendRec
deriving DecidableEq

/-- Marking an alert as posted: `self.posted_alerts.add(alert_id)`
(bot.py line 365) on the in-memory Python set. -/
def recordAlert (posted : Finset String) (alert_id : String) : Finset String :=
  insert alert_id posted

/-- Processing of one fetched alert inside `check_alerts`
(bot.py lines 332-367): skip unless the id is truthy and unseen; otherwise
render, choose the content, run the posting loop over all configured
channels, and mark/persist only when `posted_successfully`. -/
def processAlert (env : Env) (alert_channels : List Int) (st : CycleState)
    (alert : Alert) : CycleState :=
  let alert_id := alert.alertId
  if alert_id ≠ "" ∧ alert_id ∉ st.posted then
    let content := alertContent alert
    let r := postLoop env.resolve (fun c => env.sendOk c alert_id)
      alert_channels
    if r.posted_successfully then
      { posted := recordAlert st.posted alert_id
        saves := st.saves + 1
        rendered := st.rendered ++ [alert_id]
        attempts := st.attempts ++
          r.attempted.map (fun c => ⟨c, alert_id, content⟩)
        successes := st.successes ++
          r.succeeded.map (fun c => ⟨c, alert_id, content⟩) }
    else
      { posted := st.posted
        saves := st.saves
        rendered := st.rendered ++ [alert_id]
        attempts := st.attempts ++
          r.attempted.map (fun c => ⟨c, alert_id, content⟩)
        successes := st.successes ++
          r.succeeded.map (fun c => ⟨c, alert_id, content⟩) }
  else st

/-- The fresh state a cycle starts from, given the current dedup store. -/
def initState (posted0 : Finset String) : CycleState :=
  { posted := posted0, saves := 0, rendered := [], attempts := [],
    successes := [] }

/-- Result of one `check_alerts` cycle: whether `fetch_alerts` was called,
and the state after processing. -/
structure CycleResult where
  fetched : Bool
  state : CycleState
deriving DecidableEq

/-- One cycle of `NWSAlertBot.check_alerts` (bot.py lines 321-367):
read the configured channels; when none, return before fetching; otherwise
fetch (the fetched list is passed in as `fetched_alerts`) and process each
alert in upstream order. -/
def check_alerts (env : Env) (server_config : ServerConfig)
    (fetched_alerts : List Alert) (posted0 : Finset String) : CycleResult :=
  let alert_channels := get_all_alert_channels server_config
  if alert_channels = [] then
    { fetched := false, state := initState posted0 }
  else
    { fetched := true
      state := fetched_alerts.foldl (processAlert env alert_channels)
        (initState posted0) }

/-! ## Upstream fetch (`fetch_alerts`) -/

/-- The `features` value inside a decoded alerts payload: a JSON list of
alert records, or some other JSON value. -/
inductive JFeatures where
  | flist (alerts : List Alert) : JFeatures
  | fother : JFeatures
deriving DecidableEq

/-- The decoded JSON body of an alerts response: either not a dict (so
`data.get` raises `AttributeError`, caught by the broad `except`), or a
dict whose `features` key may be absent. -/
inductive JPayload where
  | notDict : JPayload
  | dict (features : Option JFeatures) : JPayload
deriving DecidableEq

/-- The body of an HTTP response: `response.json()` either raises (malformed
JSON) or yields a decoded payload. -/
inductive RespBody where
  | malformed : RespBody
  | json (v : JPayload) : RespBody
deriving DecidableEq

/-- What the transport produced for one `session.get`: a raised transport
error, or a response with a status code and body. -/
inductive FetchOutcome where
  | transportError : FetchOutcome
  | response (status : Nat) (body : RespBody) : FetchOutcome
deriving DecidableEq

/-- The value `fetch_alerts` returns: a list of alert records, or (when the
decoded dict's `features` value is not a list) that non-list value passed
through verbatim. -/
inductive FetchValue where
  | alerts (l : List Alert) : FetchValue
  | raw : FetchValue
deriving DecidableEq

/-- Model of `NWSAlertBot.fetch_alerts` (bot.py lines 166-179), returning
the value and whether a failure was logged.  Every failure path is inside
the `try`/broad `except` (or the non-200 `else`), so the function never
raises. -/
def fetch_alerts : FetchOutcome → FetchValue × Bool
  | .transportError => (.alerts [], true)
  | .response status body =>
    if status = 200 then
      match body with
      | .malformed => (.alerts [], true)
      | .json .notDict => (.alerts [], true)
      | .json (.dict none) => (.alerts [], false)
      | .json (.dict (some (.flist l))) => (.alerts l, false)
      | .json (.dict (some .fother)) => (.raw, false)
    else (.alerts [], true)

/-! ## Helper lemmas -/

theorem postLoop_attempted (resolve sendOk : Int → Bool) (l : List Int) :
    (postLoop resolve sendOk l).attempted = l.filter (fun c => resolve c) := by
  induction l with
  | nil => rfl
  | cons c rest ih =>
    by_cases hr : resolve c <;> by_cases hs : sendOk c <;>
      simp [postLoop, hr, hs, ih]

theorem postLoop_succeeded (resolve sendOk : Int → Bool) (l : List Int) :
    (postLoop resolve sendOk l).succeeded
      = l.filter (fun c => resolve c && sendOk c) := by
  induction l with
  | nil => rfl
  | cons c rest ih =>
    by_cases hr : resolve c <;> by_cases hs : sendOk c <;>
      simp [postLoop, hr, hs, ih]

theorem postLoop_failedLogged (resolve sendOk : Int → Bool) (l : List Int) :
    (postLoop resolve sendOk l).failedLogged
      = l.filter (fun c => resolve c && !sendOk c) := by
  induction l with
  | nil => rfl
  | cons c rest ih =>
    by_cases hr : resolve c <;> by_cases hs : sendOk c <;>
      simp [postLoop, hr, hs, ih]

theorem postLoop_notFound (resolve sendOk : Int → Bool) (l : List Int) :
    (postLoop resolve sendOk l).notFound = l.filter (fun c => !resolve c) := by
  induction l with
  | nil => rfl
  | cons c rest ih =>
    by_cases hr : resolve c <;> by_cases hs : sendOk c <;>
      simp [postLoop, hr, hs, ih]

theorem postLoop_flag (resolve sendOk : Int → Bool) (l : List Int) :
    (postLoop resolve sendOk l).posted_successfully = true ↔
      (postLoop resolve sendOk l).succeeded ≠ [] := by
  induction l with
  | nil => simp [postLoop]
  | cons c rest ih =>
    by_cases hr : resolve c <;> by_cases hs : sendOk c <;>
      simp [postLoop, hr, hs, ih]

theorem processAlert_seen (env : Env) (channels : List Int) (st : CycleState)
    (alert : Alert) (h : alert.alertId ∈ st.posted) :
    processAlert env channels st alert = st := by
  unfold processAlert
  rw [if_neg]
  intro hc
  exact hc.2 h

theorem processAlert_no_id (env : Env) (channels : List Int) (st : CycleState)
    (alert : Alert) (h : alert.alertId = "") :
    processAlert env channels st alert = st := by
  unfold processAlert
  rw [if_neg]
  intro hc
  exact hc.1 h

/-! ## Claim theorems -/

/-- C3: during the fan-out of one notification, a send failure at any
destination is caught (and logged into `failedLogged`) without aborting the
rest: the attempted set is every resolvable destination regardless of other
failures, the success set is exactly the destinations whose send succeeded,
and `posted_successfully` holds exactly when some destination succeeded. -/
theorem fanout_isolation (resolve sendOk : Int → Bool) (channels : List Int) :
    (postLoop resolve sendOk channels).attempted
        = channels.filter (fun c => resolve c) ∧
    (postLoop resolve sendOk channels).succeeded
        = channels.filter (fun c => resolve c && sendOk c) ∧
    (postLoop resolve sendOk channels).failedLogged
        = channels.filter (fun c => resolve c && !sendOk c) ∧
    ((postLoop resolve sendOk channels).posted_successfully = true ↔
        (postLoop resolve sendOk channels).succeeded ≠ []) :=
  ⟨postLoop_attempted resolve sendOk channels,
   postLoop_succeeded resolve sendOk channels,
   postLoop_failedLogged resolve sendOk channels,
   postLoop_flag resolve sendOk channels⟩

/-- C4: when the registry yields no destinations, `check_alerts` returns
before calling the fetcher and processes nothing. -/
theorem empty_registry_short_circuit (env : Env) (config : ServerConfig)
    (alerts : List Alert) (posted0 : Finset String)
    (h : get_all_alert_channels config = []) :
    check_alerts env config alerts posted0
      = { fetched := false, state := initState posted0 } := by
  simp [check_alerts, h]

/-- Witness for `empty_registry_short_circuit` at the empty registry. -/
theorem empty_registry_short_circuit_witness :
    get_all_alert_channels [] = [] ∧
    check_alerts ⟨fun _ => true, fun _ _ => true⟩ []
        [⟨some ⟨some "x", none, none⟩⟩] ∅
      = { fetched := false, state := initState ∅ } :=
  ⟨rfl, empty_registry_short_circuit ⟨fun _ => true, fun _ _ => true⟩ []
    [⟨some ⟨some "x", none, none⟩⟩] ∅ rfl⟩

/-- C2: for a new alert in a cycle, an empty fan-out success set leaves the
alert id out of the dedup store with no persistence, while a non-empty
success set records the id and persists immediately, however many
destinations failed. -/
theorem at_least_one_success_marking (env : Env) (channels : List Int)
    (st : CycleState) (alert : Alert)
    (hne : alert.alertId ≠ "") (hnew : alert.alertId ∉ st.posted) :
    ((postLoop env.resolve (fun c => env.sendOk c alert.alertId)
        channels).succeeded = [] →
      (processAlert env channels st alert).posted = st.posted ∧
      alert.alertId ∉ (processAlert env channels st alert).posted ∧
      (processAlert env channels st alert).saves = st.saves) ∧
    ((postLoop env.resolve (fun c => env.sendOk c alert.alertId)
        channels).succeeded ≠ [] →
      alert.alertId ∈ (processAlert env channels st alert).posted ∧
      (processAlert env channels st alert).saves = st.saves + 1) := by
  have hflag := postLoop_flag env.resolve
    (fun c => env.sendOk c alert.alertId) channels
  unfold processAlert
  rw [if_pos ⟨hne, hnew⟩]
  constructor
  · intro hempty
    have : (postLoop env.resolve (fun c => env.sendOk c alert.alertId)
        channels).posted_successfully = false := by
      rcases Bool.eq_false_or_eq_true (postLoop env.resolve
        (fun c => env.sendOk c alert.alertId)
          channels).posted_successfully with ht | hf
      · exact absurd hempty (by simpa using hflag.mp ht)
      · exact hf
    simp only [this]
    exact ⟨rfl, hnew, rfl⟩
  · intro hne2
    have : (postLoop env.resolve (fun c => env.sendOk c alert.alertId)
        channels).posted_successfully = true := hflag.mpr hne2
    simp only [this]
    exact ⟨Finset.mem_insert_self _ _, rfl⟩

/-- Witness for `at_least_one_success_marking`: one destination whose send
fails (nothing recorded) under an environment where every send fails. -/
theorem at_least_one_success_marking_witness :
    (⟨some ⟨some "x", none, none⟩⟩ : Alert).alertId ≠ "" ∧
    (⟨some ⟨some "x", none, none⟩⟩ : Alert).alertId ∉ (initState ∅).posted ∧
    ((postLoop (fun _ => true) (fun _ => false) [10]).succeeded = [] →
      (processAlert ⟨fun _ => true, fun _ _ => false⟩ [10] (initState ∅)
          ⟨some ⟨some "x", none, none⟩⟩).posted = (initState ∅).posted ∧
      (⟨some ⟨some "x", none, none⟩⟩ : Alert).alertId ∉
        (processAlert ⟨fun _ => true, fun _ _ => false⟩ [10] (initState ∅)
          ⟨some ⟨some "x", none, none⟩⟩).posted ∧
      (processAlert ⟨fun _ => true, fun _ _ => false⟩ [10] (initState ∅)
          ⟨some ⟨some "x", none, none⟩⟩).saves = (initState ∅).saves) :=
  ⟨by decide, by decide,
   (at_least_one_success_marking ⟨fun _ => true, fun _ _ => false⟩ [10]
      (initState ∅) ⟨some ⟨some "x", none, none⟩⟩ (by decide) (by decide)).1⟩

/-- C7: recording an alert id again is a no-op (the id occurs at most once —
exactly once in the persisted list after a record), and an alert whose id is
already in the dedup store is skipped entirely by a later cycle step:
no render, no delivery, no state change. -/
theorem dedup_idempotence (s : Finset String) (i : String) (env : Env)
    (channels : List Int) (st : CycleState) (alert : Alert)
    (hseen : alert.alertId ∈ st.posted) :
    recordAlert (recordAlert s i) i = recordAlert s i ∧
    (recordAlert s i).toList.count i = 1 ∧
    processAlert env channels st alert = st :=
  ⟨Finset.insert_idem i s,
   List.count_eq_one_of_mem (Finset.nodup_toList _)
     (Finset.mem_toList.mpr (Finset.mem_insert_self i s)),
   processAlert_seen env channels st alert hseen⟩

/-- Witness for `dedup_idempotence`: id `"a"` already recorded, the alert
carrying it is skipped. -/
theorem dedup_idempotence_witness :
    (⟨some ⟨some "a", none, none⟩⟩ : Alert).alertId ∈
        (initState {"a"}).posted ∧
    (recordAlert (recordAlert ∅ "a") "a" = recordAlert ∅ "a" ∧
     (recordAlert ∅ "a").toList.count "a" = 1 ∧
     processAlert ⟨fun _ => true, fun _ _ => true⟩ [10] (initState {"a"})
        ⟨some ⟨some "a", none, none⟩⟩ = initState {"a"}) :=
  ⟨by decide,
   dedup_idempotence ∅ "a" ⟨fun _ => true, fun _ _ => true⟩ [10]
     (initState {"a"}) ⟨some ⟨some "a", none, none⟩⟩ (by decide)⟩

/-- C10: an alert whose identifier is missing or empty is skipped entirely —
removing it from the fetched batch leaves the whole cycle result unchanged,
and the surrounding alerts are still processed. -/
theorem missing_id_skipped (env : Env) (config : ServerConfig)
    (posted0 : Finset String) (pre post : List Alert) (bad : Alert)
    (h : bad.alertId = "") :
    check_alerts env config (pre ++ bad :: post) posted0
      = check_alerts env config (pre ++ post) posted0 := by
  unfold check_alerts
  by_cases hc : get_all_alert_channels config = []
  · simp [hc]
  · simp only [if_neg hc, List.foldl_append, List.foldl_cons,
      processAlert_no_id env _ _ bad h]

/-- Witness for `missing_id_skipped`: a propertyless alert between none and
one well-formed alert. -/
theorem missing_id_skipped_witness :
    (⟨none⟩ : Alert).alertId = "" ∧
    check_alerts ⟨fun _ => true, fun _ _ => true⟩ [("1", ⟨some 10⟩)]
        ([] ++ (⟨none⟩ : Alert) :: [⟨some ⟨some "x", none, none⟩⟩]) ∅
      = check_alerts ⟨fun _ => true, fun _ _ => true⟩ [("1", ⟨some 10⟩)]
        ([] ++ [⟨some ⟨some "x", none, none⟩⟩]) ∅ :=
  ⟨rfl,
   missing_id_skipped ⟨fun _ => true, fun _ _ => true⟩ [("1", ⟨some 10⟩)] ∅
     [] [⟨some ⟨some "x", none, none⟩⟩] ⟨none⟩ rfl⟩

theorem processAlert_content_independent (env : Env) (channels : List Int)
    (st : CycleState) (a b : Alert) (hid : a.alertId = b.alertId) :
    (processAlert env channels st a).posted
        = (processAlert env channels st b).posted ∧
    (processAlert env channels st a).saves
        = (processAlert env channels st b).saves ∧
    (processAlert env channels st a).rendered
        = (processAlert env channels st b).rendered ∧
    (processAlert env channels st a).attempts.map
        (fun r => (r.channel, r.alertId))
      = (processAlert env channels st b).attempts.map
        (fun r => (r.channel, r.alertId)) ∧
    (processAlert env channels st a).successes.map
        (fun r => (r.channel, r.alertId))
      = (processAlert env channels st b).successes.map
        (fun r => (r.channel, r.alertId)) := by
  unfold processAlert
  rw [hid]
  by_cases hg : b.alertId ≠ "" ∧ b.alertId ∉ st.posted
  · rw [if_pos hg, if_pos hg]
    by_cases hflag : (postLoop env.resolve
        (fun c => env.sendOk c b.alertId) channels).posted_successfully
    · simp [hflag, List.map_append, List.map_map, Function.comp]
    · simp [hflag, List.map_append, List.map_map, Function.comp]
  · rw [if_neg hg, if_neg hg]
    exact ⟨rfl, rfl, rfl, rfl, rfl⟩

/-- C9: a processed alert's notification content carries the
`@everyone` broadcast marker exactly when its severity is `"Extreme"` (the
highest level of `SEVERITY_COLORS`) or its event is in the always-urgent
`ping_events` list; every send attempted for the alert carries that content,
and the marker influences nothing but the content: dedup state, persistence
and fan-out outcomes depend only on the alert id. -/
theorem urgency_marker (env : Env) (channels : List Int) (st : CycleState)
    (a b : Alert) (hid : a.alertId = b.alertId) :
    (alertContent a = pingMessage ↔
        (a.severityOf = "Extreme" ∨ a.eventOf ∈ ping_events)) ∧
    (∀ r ∈ (processAlert env channels st a).attempts,
        r ∈ st.attempts ∨ r.content = alertContent a) ∧
    (processAlert env channels st a).posted
        = (processAlert env channels st b).posted ∧
    (processAlert env channels st a).saves
        = (processAlert env channels st b).saves ∧
    (processAlert env channels st a).successes.map
        (fun r => (r.channel, r.alertId))
      = (processAlert env channels st b).successes.map
        (fun r => (r.channel, r.alertId)) := by
  have hindep := processAlert_content_independent env channels st a b hid
  refine ⟨?_, ?_, hindep.1, hindep.2.1, hindep.2.2.2.2⟩
  · by_cases hcond : a.severityOf = "Extreme" ∨ a.eventOf ∈ ping_events
    · rw [alertContent, if_pos hcond]
      exact iff_of_true rfl hcond
    · rw [alertContent, if_neg hcond]
      exact iff_of_false (by decide) hcond
  · intro r hr
    unfold processAlert at hr
    by_cases hg : a.alertId ≠ "" ∧ a.alertId ∉ st.posted
    · rw [if_pos hg] at hr
      by_cases hflag : (postLoop env.resolve
          (fun c => env.sendOk c a.alertId) channels).posted_successfully
      · simp only [if_pos hflag, List.mem_append] at hr
        rcases hr with hr | hr
        · exact Or.inl hr
        · rcases List.mem_map.mp hr with ⟨c, _, hc⟩
          exact Or.inr (by rw [← hc])
      · simp only [if_neg hflag, List.mem_append] at hr
        rcases hr with hr | hr
        · exact Or.inl hr
        · rcases List.mem_map.mp hr with ⟨c, _, hc⟩
          exact Or.inr (by rw [← hc])
    · rw [if_neg hg] at hr
      exact Or.inl hr

/-- Witness for `urgency_marker` at an Extreme-severity alert. -/
theorem urgency_marker_witness :
    (⟨some ⟨some "x", none, some "Extreme"⟩⟩ : Alert).alertId
        = (⟨some ⟨some "x", none, some "Extreme"⟩⟩ : Alert).alertId ∧
    (alertContent ⟨some ⟨some "x", none, some "Extreme"⟩⟩ = pingMessage ↔
        ((⟨some ⟨some "x", none, some "Extreme"⟩⟩ : Alert).severityOf
            = "Extreme" ∨
          (⟨some ⟨some "x", none, some "Extreme"⟩⟩ : Alert).eventOf
            ∈ ping_events)) :=
  ⟨rfl,
   (urgency_marker ⟨fun _ => true, fun _ _ => true⟩ [10] (initState ∅)
     ⟨some ⟨some "x", none, some "Extreme"⟩⟩
     ⟨some ⟨some "x", none, some "Extreme"⟩⟩ rfl).1⟩

/-- C6: `fetch_alerts` returns the empty list and logs on a transport
failure, a non-200 status, an unparseable body, or a body on which the
`features` lookup raises (non-dict JSON) — it is a total function, so no
exception escapes — and on a 200 response whose decoded dict carries a
`features` list it returns that list verbatim, in upstream order. -/
theorem fetch_degrades_gracefully (status : Nat) (body : RespBody)
    (l : List Alert) :
    fetch_alerts .transportError = (.alerts [], true) ∧
    (status ≠ 200 → fetch_alerts (.response status body)
        = (.alerts [], true)) ∧
    fetch_alerts (.response 200 .malformed) = (.alerts [], true) ∧
    fetch_alerts (.response 200 (.json .notDict)) = (.alerts [], true) ∧
    fetch_alerts (.response 200 (.json (.dict none))) = (.alerts [], false) ∧
    fetch_alerts (.response 200 (.json (.dict (some (.flist l)))))
        = (.alerts l, false) := by
  refine ⟨rfl, ?_, rfl, rfl, rfl, rfl⟩
  intro h
  simp [fetch_alerts, h]

/-- Witness for `fetch_degrades_gracefully`: a 404 response yields the empty
list plus a log, and a well-formed 200 payload passes its list through. -/
theorem fetch_degrades_gracefully_witness :
    fetch_alerts (.response 404 .malformed) = (.alerts [], true) ∧
    fetch_alerts (.response 200 (.json (.dict (some
        (.flist [⟨some ⟨some "x", none, none⟩⟩])))))
      = (.alerts [⟨some ⟨some "x", none, none⟩⟩], false) :=
  ⟨(fetch_degrades_gracefully 404 .malformed []).2.1 (by decide),
   (fetch_degrades_gracefully 404 .malformed
     [⟨some ⟨some "x", none, none⟩⟩]).2.2.2.2.2⟩

theorem pyDedupGo_length_le (eq : α → α → Bool) (l : List α) :
    ∀ seen, (pyDedupGo eq seen l).length ≤ l.length := by
  induction l with
  | nil => intro seen; simp [pyDedupGo]
  | cons x xs ih =>
    intro seen
    by_cases hs : seen.any (fun y => eq y x)
    · calc (pyDedupGo eq seen (x :: xs)).length
          = (pyDedupGo eq seen xs).length := by simp [pyDedupGo, hs]
        _ ≤ xs.length := ih seen
        _ ≤ (x :: xs).length := by simp
    · calc (pyDedupGo eq seen (x :: xs)).length
          = (pyDedupGo eq (x :: seen) xs).length + 1 := by
            simp [pyDedupGo, hs]
        _ ≤ xs.length + 1 := by
            exact Nat.add_le_add_right (ih (x :: seen)) 1
        _ = (x :: xs).length := by simp

theorem pyDedup_length_le (eq : α → α → Bool) (l : List α) :
    (pyDedup eq l).length ≤ l.length :=
  pyDedupGo_length_le eq l []

theorem pyTakeLast_length_le (n : Nat) (xs : List α) :
    (pyTakeLast n xs).length ≤ n := by
  simp only [pyTakeLast, List.length_drop]
  omega

theorem load_posted_alerts_arr (xs : List Json)
    (h : xs.all Json.hashable = true) :
    load_posted_alerts (.json (.arr xs))
      = .ok (pyDedup Json.scalarEq (pyTakeLast 500 xs)) := by
  have hall : (pyTakeLast 500 xs).all Json.hashable = true := by
    rw [List.all_eq_true] at h ⊢
    intro x hx
    exact h x (List.drop_subset _ _ hx)
  simp [load_posted_alerts, hall]

theorem foldl_recordAlert (ids : List String) (s : Finset String) :
    ids.foldl recordAlert s = s ∪ ids.toFinset := by
  induction ids generalizing s with
  | nil => simp
  | cons a l ih =>
    simp [recordAlert, ih, Finset.insert_union, Finset.union_insert]

/-- Alert id of `n` letters, used to build many distinct identifiers. -/
def mkId (n : Nat) : String := String.mk (List.replicate n 'a')

theorem mkId_injective : Function.Injective mkId := by
  intro i j h
  have hd : List.replicate i 'a' = List.replicate j 'a' :=
    congrArg String.data h
  have := congrArg List.length hd
  simpa using this

/-- C1 counterexample: recording 501 distinct identifiers leaves the
in-memory dedup store at 501 entries — the 500 cap is not enforced by
`record` (`posted_alerts.add` never evicts). -/
theorem record_cap_counterexample :
    500 < (((List.range 501).map mkId).foldl recordAlert ∅).card := by
  rw [foldl_recordAlert, Finset.empty_union,
    List.toFinset_card_of_nodup ((List.nodup_range 501).map mkId_injective)]
  simp

/-- C1 (amended): `record` is plain set insertion — a run of `record` calls
grows the store to the union of the old store and the recorded ids, evicting
nothing, so the size is unbounded within a session; the 500 cap is enforced
only when the persisted file is loaded, by keeping the last 500 entries of
the persisted list (`data[-500:]`, positional — the persisted order is the
set's iteration order, not insertion order), after which the store holds at
most 500 entries. -/
theorem record_no_evict_cap_only_on_load (s : Finset String)
    (ids : List String) (xs : List Json)
    (h : xs.all Json.hashable = true) :
    ids.foldl recordAlert s = s ∪ ids.toFinset ∧
    s ⊆ ids.foldl recordAlert s ∧
    load_posted_alerts (.json (.arr xs))
        = .ok (pyDedup Json.scalarEq (pyTakeLast 500 xs)) ∧
    (pyDedup Json.scalarEq (pyTakeLast 500 xs)).length ≤ 500 := by
  refine ⟨foldl_recordAlert ids s, ?_, load_posted_alerts_arr xs h, ?_⟩
  · rw [foldl_recordAlert]
    exact Finset.subset_union_left
  · exact le_trans (pyDedup_length_le _ _) (pyTakeLast_length_le 500 xs)

/-- Witness for `record_no_evict_cap_only_on_load` at a one-entry store. -/
theorem record_no_evict_cap_only_on_load_witness :
    ([Json.str "a"].all Json.hashable = true) ∧
    (["b"].foldl recordAlert {"a"} = {"a"} ∪ ["b"].toFinset ∧
     ({"a"} : Finset String) ⊆ ["b"].foldl recordAlert {"a"} ∧
     load_posted_alerts (.json (.arr [Json.str "a"]))
         = .ok (pyDedup Json.scalarEq (pyTakeLast 500 [Json.str "a"])) ∧
     (pyDedup Json.scalarEq (pyTakeLast 500 [Json.str "a"])).length ≤ 500) :=
  ⟨by decide,
   record_no_evict_cap_only_on_load {"a"} ["b"] [Json.str "a"] (by decide)⟩

/-- C5 counterexample: a dedup file holding valid JSON that is not a list
(here the JSON object `{}`) makes `load_posted_alerts` raise an uncaught
`TypeError` (`data[-500:]` on a dict) instead of resetting to empty — the
`except` clause catches only `json.JSONDecodeError` and `IOError`. -/
theorem load_corruption_counterexample :
    load_posted_alerts (.json (.obj [])) = .error .typeError := rfl

/-- C5 (amended): dedup-store load yields the empty store on a missing file,
an unreadable file, or syntactically invalid JSON, and truncates a decoded
list to its last 500 entries (at most 500 survive); but syntactically valid
JSON that is not a list or string raises an uncaught `TypeError` and fails
startup.  Registry load is tolerant as claimed: missing/unreadable/invalid
files yield the empty dict and a decoded value is returned as-is, never
raising. -/
theorem tolerant_load (xs : List Json) (h : xs.all Json.hashable = true) :
    load_posted_alerts .missing = .ok [] ∧
    load_posted_alerts .ioError = .ok [] ∧
    load_posted_alerts .decodeFail = .ok [] ∧
    load_posted_alerts (.json (.arr xs))
        = .ok (pyDedup Json.scalarEq (pyTakeLast 500 xs)) ∧
    (pyDedup Json.scalarEq (pyTakeLast 500 xs)).length ≤ 500 ∧
    load_server_config .missing = .obj [] ∧
    load_server_config .ioError = .obj [] ∧
    load_server_config .decodeFail = .obj [] ∧
    (∀ v, load_server_config (.json v) = v) :=
  ⟨rfl, rfl, rfl, load_posted_alerts_arr xs h,
   le_trans (pyDedup_length_le _ _) (pyTakeLast_length_le 500 xs),
   rfl, rfl, rfl, fun _ => rfl⟩

/-- Witness for `tolerant_load` at a one-element list file. -/
theorem tolerant_load_witness :
    ([Json.str "a"].all Json.hashable = true) ∧
    (load_posted_alerts .missing = .ok [] ∧
     load_posted_alerts (.json (.arr [Json.str "a"]))
        = .ok (pyDedup Json.scalarEq (pyTakeLast 500 [Json.str "a"]))) :=
  ⟨by decide,
   (tolerant_load [Json.str "a"] (by decide)).1,
   (tolerant_load [Json.str "a"] (by decide)).2.2.2.1⟩

theorem pyDictGet_eq_none (d : List (String × α)) (k : String) :
    pyDictGet d k = none ↔ k ∉ d.map Prod.fst := by
  induction d with
  | nil => simp [pyDictGet]
  | cons p rest ih =>
    obtain ⟨k', v⟩ := p
    by_cases h : k' = k
    · subst h; simp [pyDictGet]
    · simp only [pyDictGet, if_neg h, List.map_cons, List.mem_cons, ih]
      constructor
      · rintro hn (rfl | hm)
        · exact h rfl
        · exact hn hm
      · intro hn hm
        exact hn (Or.inr hm)

theorem pyDictGet_append (d : List (String × α)) (k : String) (v : α)
    (h : pyDictGet d k = none) :
    pyDictGet (d ++ [(k, v)]) k = some v := by
  induction d with
  | nil => simp [pyDictGet]
  | cons p rest ih =>
    obtain ⟨k', v'⟩ := p
    by_cases hk : k' = k
    · simp [pyDictGet, hk] at h
    · simp only [pyDictGet, if_neg hk] at h
      simp only [List.cons_append, pyDictGet, if_neg hk]
      exact ih h

theorem pyDictGet_cons (k' : String) (v : α) (rest : List (String × α))
    (k : String) :
    pyDictGet ((k', v) :: rest) k
      = if k' = k then some v else pyDictGet rest k := rfl

theorem pyDictGet_map_set (d : List (String × α)) (k : String) (v : α)
    (h : (pyDictGet d k).isSome) :
    pyDictGet (d.map (fun p => if p.1 = k then (k, v) else p)) k = some v := by
  induction d with
  | nil => simp [pyDictGet] at h
  | cons p rest ih =>
    obtain ⟨k', v'⟩ := p
    by_cases hk : k' = k
    · subst hk
      have hhead : (if ((k', v') : String × α).1 = k' then (k', v)
          else (k', v')) = (k', v) := if_pos rfl
      rw [List.map_cons, hhead, pyDictGet_cons, if_pos rfl]
    · rw [pyDictGet_cons, if_neg hk] at h
      have hhead : (if ((k', v') : String × α).1 = k then (k, v)
          else (k', v')) = (k', v') := if_neg hk
      rw [List.map_cons, hhead, pyDictGet_cons, if_neg hk]
      exact ih h

theorem pyDictGet_set_self (d : List (String × α)) (k : String) (v : α) :
    pyDictGet (pyDictSet d k v) k = some v := by
  unfold pyDictSet
  by_cases h : (pyDictGet d k).isSome
  · rw [if_pos h]
    exact pyDictGet_map_set d k v h
  · rw [if_neg h]
    exact pyDictGet_append d k v (Option.not_isSome_iff_eq_none.mp h)

theorem keys_pyDictSet (d : List (String × α)) (k : String) (v : α)
    (h : (d.map Prod.fst).Nodup) :
    ((pyDictSet d k v).map Prod.fst).Nodup := by
  unfold pyDictSet
  by_cases hs : (pyDictGet d k).isSome
  · rw [if_pos hs]
    have heq : (d.map (fun p => if p.1 = k then (k, v) else p)).map Prod.fst
        = d.map Prod.fst := by
      rw [List.map_map]
      apply List.map_congr_left
      intro p _
      by_cases hk : p.1 = k
      · simp [hk]
      · simp [hk]
    rw [heq]
    exact h
  · rw [if_neg hs]
    have hk : k ∉ d.map Prod.fst :=
      (pyDictGet_eq_none d k).mp (Option.not_isSome_iff_eq_none.mp hs)
    rw [List.map_append]
    rw [List.nodup_append]
    refine ⟨h, by simp, ?_⟩
    intro a ha hb
    simp only [List.map_cons, List.map_nil, List.mem_singleton] at hb
    exact hk (hb ▸ ha)

theorem filter_key_of_get (d : List (String × α)) (k : String) (v : α)
    (hnd : (d.map Prod.fst).Nodup) (h : pyDictGet d k = some v) :
    d.filter (fun p => p.1 == k) = [(k, v)] := by
  induction d with
  | nil => simp [pyDictGet] at h
  | cons p rest ih =>
    obtain ⟨k', v'⟩ := p
    rw [List.map_cons, List.nodup_cons] at hnd
    by_cases hk : k' = k
    · subst hk
      rw [pyDictGet, if_pos rfl] at h
      have hv : v' = v := by simpa using h
      subst hv
      have hrest : rest.filter (fun p => p.1 == k') = [] := by
        rw [List.filter_eq_nil_iff]
        intro p hp hpk
        rw [beq_iff_eq] at hpk
        exact hnd.1 (List.mem_map.mpr ⟨p, hp, hpk⟩)
      simp [List.filter_cons, hrest]
    · rw [pyDictGet, if_neg hk] at h
      have : ((k', v').1 == k) = false := by
        simpa using hk
      simp only [List.filter_cons, this, Bool.false_eq_true, if_false]
      exact ih hnd.2 h

theorem pyDictGet_del (d : List (String × α)) (k : String)
    (hnd : (d.map Prod.fst).Nodup) :
    pyDictGet (pyDictDel d k) k = none := by
  induction d with
  | nil => rfl
  | cons p rest ih =>
    obtain ⟨k', v'⟩ := p
    rw [List.map_cons, List.nodup_cons] at hnd
    by_cases hk : k' = k
    · subst hk
      rw [pyDictDel, if_pos rfl]
      exact (pyDictGet_eq_none rest k').mpr hnd.1
    · rw [pyDictDel, if_neg hk, pyDictGet, if_neg hk]
      exact ih hnd.2

/-- C8: upserting a tenant twice leaves exactly one registry entry for it,
holding the second value `{alert_channel_id: B}`; removing it then returns
true and leaves its lookup absent; removing a tenant with no entry returns
false.  (Python dicts cannot hold duplicate keys, hence the nodup-keys
hypothesis.) -/
theorem registry_upsert (config : ServerConfig) (t A B : Int)
    (hnd : (config.map Prod.fst).Nodup) :
    (set_alert_channel (set_alert_channel config t A) t B).filter
        (fun p => p.1 == toString t) = [(toString t, ⟨some B⟩)] ∧
    get_alert_channel (set_alert_channel (set_alert_channel config t A) t B) t
        = some B ∧
    (remove_alert_channel
        (set_alert_channel (set_alert_channel config t A) t B) t).2 = true ∧
    get_alert_channel
        (remove_alert_channel
          (set_alert_channel (set_alert_channel config t A) t B) t).1 t
        = none ∧
    (∀ cfg : ServerConfig, pyDictGet cfg (toString t) = none →
        (remove_alert_channel cfg t).2 = false) := by
  have h1 : ((pyDictSet config (toString t)
      (⟨some A⟩ : GuildConfig)).map Prod.fst).Nodup :=
    keys_pyDictSet config (toString t) ⟨some A⟩ hnd
  have h2 : ((pyDictSet (pyDictSet config (toString t)
      (⟨some A⟩ : GuildConfig)) (toString t)
        (⟨some B⟩ : GuildConfig)).map Prod.fst).Nodup :=
    keys_pyDictSet _ (toString t) ⟨some B⟩ h1
  have hget : pyDictGet (pyDictSet (pyDictSet config (toString t)
      (⟨some A⟩ : GuildConfig)) (toString t)
        (⟨some B⟩ : GuildConfig)) (toString t) = some ⟨some B⟩ :=
    pyDictGet_set_self _ (toString t) (⟨some B⟩ : GuildConfig)
  unfold set_alert_channel
  refine ⟨filter_key_of_get _ _ _ h2 hget, ?_, ?_, ?_, ?_⟩
  · unfold get_alert_channel
    rw [hget]
  · simp [remove_alert_channel, hget]
  · have hdel : (remove_alert_channel
        (pyDictSet (pyDictSet config (toString t)
          (⟨some A⟩ : GuildConfig)) (toString t)
            (⟨some B⟩ : GuildConfig)) t).1
          = pyDictDel (pyDictSet (pyDictSet config (toString t)
            (⟨some A⟩ : GuildConfig)) (toString t)
              (⟨some B⟩ : GuildConfig)) (toString t) := by
      simp [remove_alert_channel, hget]
    rw [hdel]
    unfold get_alert_channel
    rw [pyDictGet_del _ _ h2]
  · intro cfg hc
    simp [remove_alert_channel, hc]

/-- Witness for `registry_upsert` on the empty registry. -/
theorem registry_upsert_witness :
    (([] : ServerConfig).map Prod.fst).Nodup ∧
    (set_alert_channel (set_alert_channel [] 1 10) 1 20).filter
        (fun p => p.1 == toString 1) = [(toString 1, ⟨some 20⟩)] ∧
    get_alert_channel (set_alert_channel (set_alert_channel [] 1 10) 1 20) 1
        = some 20 ∧
    (remove_alert_channel
        (set_alert_channel (set_alert_channel [] 1 10) 1 20) 1).2 = true :=
  ⟨by simp,
   (registry_upsert [] 1 10 20 (by simp)).1,
   (registry_upsert [] 1 10 20 (by simp)).2.1,
   (registry_upsert [] 1 10 20 (by simp)).2.2.1⟩
